import Mathlib

/-
Verification of the gridded-NetCDF loading routine `load_grid_from_netcdf`
from the WFMD example notebook.  The routine is shallowly embedded below:
the NetCDF dataset becomes an explicit record of optional attributes and
variables (a missing key models Python's KeyError on `ds.attrs[...]` /
`ds.variables[...]`), numpy boolean-mask selection becomes `sliceMask` /
`slice3` on lists, Python exceptions become an `Except` result, and the
open/close lifecycle of the dataset handle is tracked explicitly in the
returned `LoadOutcome`.
-/

set_option maxHeartbeats 4000000
set_option maxRecDepth 100000

namespace WFMD

/-- Integer day count of a proleptic-Gregorian date from the 1970-01-01 epoch,
matching Python's `(datetime.datetime(y,m,d) - datetime.datetime(1970,1,1)).days`. -/
def daysFromCivil (y m d : Int) : Int :=
  let y2 := if m ≤ 2 then y - 1 else y
  let era : Int := (if 0 ≤ y2 then y2 else y2 - 399).tdiv 400
  let yoe : Int := y2 - era * 400
  let doy : Int := ((153 * (m + (if 2 < m then -3 else 9)) + 2).tdiv 5) + d - 1
  let doe : Int := yoe * 365 + yoe.tdiv 4 - yoe.tdiv 100 + doy
  era * 146097 + doe - 719468

/-- Truncation toward zero of a rational, matching Python's `int(...)` applied
to the quotient `(HIGH - LOW) / STEP`. -/
def ratTrunc (q : ℚ) : Int := q.num.tdiv (q.den : Int)

/-- The on-disk dataset: global attributes and named variables, each optional
(a `none` models a key missing from `ds.attrs` / `ds.variables`).  The 3-D
arrays are indexed `[lat][lon][day]`. -/
structure GridDataset where
  attrs_product_type : Option String
  attrs_lat_low : Option ℚ
  attrs_lat_high : Option ℚ
  attrs_lon_low : Option ℚ
  attrs_lon_high : Option ℚ
  attrs_lat_res : Option ℚ
  attrs_lon_res : Option ℚ
  attrs_reference_time : Option String
  var_lon : Option (List ℚ)
  var_lat : Option (List ℚ)
  var_day : Option (List Int)
  var_xch4 : Option (List (List (List ℚ)))
  var_xch4_err : Option (List (List (List ℚ)))
  var_N : Option (List (List (List Int)))
deriving DecidableEq

/-- Kinds of Python exception the routine can raise. -/
inductive LoadError where
  | fileNotFoundError
  | keyError
  | zeroDivisionError
  | valueError
  | indexError
deriving DecidableEq

/-- The metadata record returned as `grid_dim`: effective bounds plus the
file's native resolution steps. -/
structure GridDimRec where
  LAT_LOW : ℚ
  LAT_HIGH : ℚ
  LON_LOW : ℚ
  LON_HIGH : ℚ
  LAT_STEP : ℚ
  LON_STEP : ℚ
deriving DecidableEq

/-- The 9-tuple returned by `load_grid_from_netcdf`, as a record. -/
structure GridSlice where
  xch4 : List (List (List ℚ))
  sdev : List (List (List ℚ))
  N : List (List (List Int))
  x : List ℚ
  y : List ℚ
  d : List Int
  grid_dim : GridDimRec
  product_type : String
  ref_time : String
deriving DecidableEq

instance {ε α : Type} [DecidableEq ε] [DecidableEq α] : DecidableEq (Except ε α) := fun a b =>
  match a, b with
  | .error e, .error f =>
    if h : e = f then .isTrue (by rw [h]) else .isFalse (by simp [h])
  | .ok u, .ok v =>
    if h : u = v then .isTrue (by rw [h]) else .isFalse (by simp [h])
  | .error _, .ok _ => .isFalse (by simp)
  | .ok _, .error _ => .isFalse (by simp)

/-- Select the elements of `xs` at the positions where the boolean mask is
true, i.e. numpy boolean-mask indexing along one axis. -/
def sliceMask {α : Type} : List Bool → List α → List α
  | [], _ => []
  | _ :: _, [] => []
  | b :: m, v :: vs => if b then v :: sliceMask m vs else sliceMask m vs

/-- Outer (per-axis) boolean-mask indexing of a 3-D array, as performed by
`ds.variables['xch4'][a, b, day_mask]` on an xarray Variable. -/
def slice3 {α : Type} (a b c : List Bool) (A : List (List (List α))) : List (List (List α)) :=
  (sliceMask a A).map fun r => (sliceMask b r).map fun p => sliceMask c p

/-- Check that a nested-list 3-D array has exactly the shape `(n1, n2, n3)`;
numpy raises IndexError when a boolean mask's length does not match the
corresponding axis length. -/
def dimsOk {α : Type} (n1 n2 n3 : Nat) (A : List (List (List α))) : Bool :=
  A.length == n1 && A.all fun r => r.length == n2 && r.all fun p => p.length == n3

/-- The elementwise mask `(v >= lo) & (v < hi)` used for the spatial axes. -/
def halfOpenMask (lo hi : ℚ) (vs : List ℚ) : List Bool :=
  vs.map fun v => decide (lo ≤ v) && decide (v < hi)

/-- The elementwise mask `(v >= lo) & (v <= hi)` used for the day axis. -/
def closedMask (lo hi : Int) (vs : List Int) : List Bool :=
  vs.map fun v => decide (lo ≤ v) && decide (v ≤ hi)

/-- Resolution of the effective spatial bounds: unpack the caller's
`grid_dim` argument when present (Python's `lat_min, lat_max, lon_min,
lon_max = grid_dim`, a ValueError unless it has exactly four elements,
modelled by `none`), else default to the file's declared extent. -/
def effBounds (gd : Option (List ℚ)) (llo lhi lolo lohi : ℚ) : Option (ℚ × ℚ × ℚ × ℚ) :=
  match gd with
  | some l =>
    match l with
    | [p, q, r, s] => some (p, q, r, s)
    | _ => none
  | none => some (llo, lhi, lolo, lohi)

/-- Body of `load_grid_from_netcdf` after `xr.load_dataset` has produced the
dataset, with the statements in source order: read attributes, compute
`latd`/`lond` and allocate the scratch zero arrays (a ZeroDivisionError if a
step is zero, a ValueError from `np.zeros` if a computed dimension is
negative), read the coordinate variables and `reference_time`, resolve the
effective bounds, then slice the three data variables and the coordinates. -/
def load_grid_core (ds : GridDataset) (date_min date_max : Int)
    (grid_dim : Option (List ℚ)) : Except LoadError GridSlice :=
  match ds.attrs_product_type with
  | none => .error .keyError
  | some product_type =>
  match ds.attrs_lat_low with
  | none => .error .keyError
  | some LAT_LOW =>
  match ds.attrs_lat_high with
  | none => .error .keyError
  | some LAT_HIGH =>
  match ds.attrs_lon_low with
  | none => .error .keyError
  | some LON_LOW =>
  match ds.attrs_lon_high with
  | none => .error .keyError
  | some LON_HIGH =>
  match ds.attrs_lat_res with
  | none => .error .keyError
  | some LAT_STEP =>
  match ds.attrs_lon_res with
  | none => .error .keyError
  | some LON_STEP =>
  if LAT_STEP = 0 ∨ LON_STEP = 0 then .error .zeroDivisionError
  else
  if ratTrunc ((LAT_HIGH - LAT_LOW) / LAT_STEP) < 0 ∨
      ratTrunc ((LON_HIGH - LON_LOW) / LON_STEP) < 0 then .error .valueError
  else
  match ds.var_lon with
  | none => .error .keyError
  | some x =>
  match ds.var_lat with
  | none => .error .keyError
  | some y =>
  match ds.var_day with
  | none => .error .keyError
  | some d =>
  match ds.attrs_reference_time with
  | none => .error .keyError
  | some ref_time =>
  match effBounds grid_dim LAT_LOW LAT_HIGH LON_LOW LON_HIGH with
  | none => .error .valueError
  | some (lat_min, lat_max, lon_min, lon_max) =>
  match ds.var_xch4 with
  | none => .error .keyError
  | some xch4A =>
  if dimsOk y.length x.length d.length xch4A then
    match ds.var_xch4_err with
    | none => .error .keyError
    | some sdevA =>
    if dimsOk y.length x.length d.length sdevA then
      match ds.var_N with
      | none => .error .keyError
      | some nA =>
      if dimsOk y.length x.length d.length nA then
        .ok { xch4 := slice3 (halfOpenMask lat_min lat_max y) (halfOpenMask lon_min lon_max x)
                       (closedMask date_min date_max d) xch4A,
              sdev := slice3 (halfOpenMask lat_min lat_max y) (halfOpenMask lon_min lon_max x)
                       (closedMask date_min date_max d) sdevA,
              N := slice3 (halfOpenMask lat_min lat_max y) (halfOpenMask lon_min lon_max x)
                       (closedMask date_min date_max d) nA,
              x := sliceMask (halfOpenMask lon_min lon_max x) x,
              y := sliceMask (halfOpenMask lat_min lat_max y) y,
              d := sliceMask (closedMask date_min date_max d) d,
              grid_dim := { LAT_LOW := lat_min, LAT_HIGH := lat_max, LON_LOW := lon_min,
                            LON_HIGH := lon_max, LAT_STEP := LAT_STEP, LON_STEP := LON_STEP },
              product_type := product_type,
              ref_time := ref_time }
      else .error .indexError
    else .error .indexError
  else .error .indexError

/-- Result of a call to `load_grid_from_netcdf`, together with the lifecycle
of the dataset handle during the call: `opened` records whether
`xr.load_dataset` succeeded, `closed` whether `ds.close()` ran before the
call returned. -/
structure LoadOutcome where
  result : Except LoadError GridSlice
  opened : Bool
  closed : Bool
deriving DecidableEq

/-- The full routine `load_grid_from_netcdf(d1,m1,y1,d2,m2,y2,path,grid_dim)`.
The filesystem is an explicit map from paths to datasets; an unresolvable
path models `xr.load_dataset` raising FileNotFoundError.  `ds.close()` is
reached only on the success path of the body, so `closed` is true exactly
when the body produced a result. -/
def load_grid_from_netcdf (fs : String → Option GridDataset)
    (d1 m1 y1 d2 m2 y2 : Int) (path : String)
    (grid_dim : Option (List ℚ)) : LoadOutcome :=
  let date_min := daysFromCivil y1 m1 d1
  let date_max := daysFromCivil y2 m2 d2
  match fs path with
  | none => { result := .error .fileNotFoundError, opened := false, closed := false }
  | some ds =>
    match load_grid_core ds date_min date_max grid_dim with
    | .error e => { result := .error e, opened := true, closed := false }
    | .ok sl => { result := .ok sl, opened := true, closed := true }

/-- Boolean success test on an `Except` result. -/
def exceptIsOk {ε α : Type} : Except ε α → Bool
  | .ok _ => true
  | .error _ => false

/-- Shape predicate for a nested-list 3-D array. -/
def shape3 {α : Type} (A : List (List (List α))) (n1 n2 n3 : Nat) : Prop :=
  A.length = n1 ∧ ∀ r ∈ A, r.length = n2 ∧ ∀ p ∈ r, p.length = n3

/-- True when some required attribute or variable is absent from the file. -/
def missingRequired (ds : GridDataset) : Bool :=
  ds.attrs_product_type.isNone || ds.attrs_lat_low.isNone || ds.attrs_lat_high.isNone ||
  ds.attrs_lon_low.isNone || ds.attrs_lon_high.isNone || ds.attrs_lat_res.isNone ||
  ds.attrs_lon_res.isNone || ds.attrs_reference_time.isNone || ds.var_lon.isNone ||
  ds.var_lat.isNone || ds.var_day.isNone || ds.var_xch4.isNone ||
  ds.var_xch4_err.isNone || ds.var_N.isNone

/-- Latitude axis of the spec's example file: a 2-degree grid from -90 to 90. -/
def exampleLat : List ℚ := (List.range 90).map fun i => -90 + 2 * (i : ℚ)

/-- Longitude axis of the spec's example file: a 2-degree grid from -180 to 180. -/
def exampleLon : List ℚ := (List.range 180).map fun i => -180 + 2 * (i : ℚ)

/-- Day axis of the example file, inside the declared range 17532-17600. -/
def exampleDay : List Int := [17532, 17550, 17590]

/-- Data variable of the example file, shaped 90 x 180 x 3. -/
def exampleArr : List (List (List ℚ)) :=
  List.replicate 90 (List.replicate 180 (List.replicate 3 0))

/-- Count variable of the example file, shaped 90 x 180 x 3. -/
def exampleArrN : List (List (List Int)) :=
  List.replicate 90 (List.replicate 180 (List.replicate 3 0))

/-- The example file of spec section 8: a 2-degree global grid. -/
def exampleDS : GridDataset :=
  { attrs_product_type := some "WFMDv1.8"
    attrs_lat_low := some (-90), attrs_lat_high := some 90
    attrs_lon_low := some (-180), attrs_lon_high := some 180
    attrs_lat_res := some 2, attrs_lon_res := some 2
    attrs_reference_time := some "2010-01-01"
    var_lon := some exampleLon, var_lat := some exampleLat, var_day := some exampleDay
    var_xch4 := some exampleArr, var_xch4_err := some exampleArr, var_N := some exampleArrN }

/-- Filesystem holding the example file. -/
def exampleFS : String → Option GridDataset :=
  fun p => if p = "example.nc" then some exampleDS else none

/-- A small consistent 2 x 2 x 3 file used to instantiate the theorems. -/
def smallDS : GridDataset :=
  { attrs_product_type := some "small"
    attrs_lat_low := some 0, attrs_lat_high := some 4
    attrs_lon_low := some 0, attrs_lon_high := some 4
    attrs_lat_res := some 2, attrs_lon_res := some 2
    attrs_reference_time := some "r"
    var_lon := some [0, 2], var_lat := some [0, 2]
    var_day := some [17532, 17563, 17600]
    var_xch4 := some [[[1, 2, 3], [4, 5, 6]], [[7, 8, 9], [10, 11, 12]]]
    var_xch4_err := some [[[1, 1, 1], [1, 1, 1]], [[1, 1, 1], [1, 1, 1]]]
    var_N := some [[[1, 1, 1], [1, 1, 1]], [[1, 1, 1], [1, 1, 1]]] }

/-- Filesystem holding the small file. -/
def smallFS : String → Option GridDataset :=
  fun p => if p = "small.nc" then some smallDS else none

/-- The slice produced from `smallDS` for 2018-01-01 .. 2018-02-01, full extent. -/
def smallSliceA : GridSlice :=
  { xch4 := [[[1, 2], [4, 5]], [[7, 8], [10, 11]]]
    sdev := [[[1, 1], [1, 1]], [[1, 1], [1, 1]]]
    N := [[[1, 1], [1, 1]], [[1, 1], [1, 1]]]
    x := [0, 2], y := [0, 2], d := [17532, 17563]
    grid_dim := { LAT_LOW := 0, LAT_HIGH := 4, LON_LOW := 0, LON_HIGH := 4,
                  LAT_STEP := 2, LON_STEP := 2 }
    product_type := "small", ref_time := "r" }

/-- The empty slice produced from `smallDS` when the start date follows the end date. -/
def smallSliceE : GridSlice :=
  { xch4 := [[[], []], [[], []]]
    sdev := [[[], []], [[], []]]
    N := [[[], []], [[], []]]
    x := [0, 2], y := [0, 2], d := []
    grid_dim := { LAT_LOW := 0, LAT_HIGH := 4, LON_LOW := 0, LON_HIGH := 4,
                  LAT_STEP := 2, LON_STEP := 2 }
    product_type := "small", ref_time := "r" }

/-- A file whose declared bounds and steps announce a 5 x 5 grid while the
arrays are actually 2 x 2 x 1: the declared metadata is inconsistent with the
actual dimensions. -/
def incDS : GridDataset :=
  { attrs_product_type := some "inc"
    attrs_lat_low := some 0, attrs_lat_high := some 10
    attrs_lon_low := some 0, attrs_lon_high := some 10
    attrs_lat_res := some 2, attrs_lon_res := some 2
    attrs_reference_time := some "r"
    var_lon := some [0, 2], var_lat := some [0, 2]
    var_day := some [17532]
    var_xch4 := some [[[1], [2]], [[3], [4]]]
    var_xch4_err := some [[[1], [2]], [[3], [4]]]
    var_N := some [[[1], [2]], [[3], [4]]] }

/-- Filesystem holding the inconsistent file. -/
def incFS : String → Option GridDataset :=
  fun p => if p = "inc.nc" then some incDS else none

/-- Elements selected by a mask all occur in the original list. -/
theorem sliceMask_mem {α : Type} (m : List Bool) (xs : List α) (v : α)
    (h : v ∈ sliceMask m xs) : v ∈ xs := by
  induction m generalizing xs with
  | nil => simp [sliceMask] at h
  | cons b mm ih =>
    cases xs with
    | nil => simp [sliceMask] at h
    | cons w ws =>
      cases b with
      | false => exact List.mem_cons_of_mem _ (ih _ (by simpa [sliceMask] using h))
      | true =>
        rcases List.mem_cons.mp (by simpa [sliceMask] using h) with h1 | h2
        · exact h1 ▸ List.mem_cons_self _ _
        · exact List.mem_cons_of_mem _ (ih _ h2)

/-- Elements selected by an elementwise-predicate mask satisfy the predicate. -/
theorem sliceMask_map_pred {α : Type} (p : α → Bool) (xs : List α) (v : α)
    (h : v ∈ sliceMask (xs.map p) xs) : p v = true := by
  induction xs with
  | nil => simp [sliceMask] at h
  | cons x xs ih =>
    by_cases hp : p x = true
    · rcases List.mem_cons.mp (by simpa [sliceMask, hp] using h) with h1 | h2
      · exact h1 ▸ hp
      · exact ih h2
    · exact ih (by simpa [sliceMask, hp] using h)

/-- Length of a masked selection, when the mask matches the axis length. -/
theorem sliceMask_length {α : Type} (m : List Bool) (xs : List α)
    (h : m.length = xs.length) : (sliceMask m xs).length = m.count true := by
  induction m generalizing xs with
  | nil => simp [sliceMask]
  | cons b mm ih =>
    cases xs with
    | nil => simp at h
    | cons w ws =>
      simp only [List.length_cons, Nat.succ.injEq] at h
      cases b <;> simp [sliceMask, List.count_cons, ih _ h]

/-- A mask with no true entry selects nothing. -/
theorem sliceMask_all_false {α : Type} (m : List Bool) (xs : List α)
    (h : ∀ b ∈ m, b = false) : sliceMask m xs = [] := by
  induction m generalizing xs with
  | nil => cases xs <;> rfl
  | cons b mm ih =>
    cases xs with
    | nil => rfl
    | cons w ws =>
      have hb := h b (List.mem_cons_self _ _)
      subst hb
      exact by simpa [sliceMask] using ih ws fun c hc => h c (List.mem_cons_of_mem _ hc)

/-- Unfolding of the boolean shape check into the shape predicate. -/
theorem dimsOk_spec {α : Type} {n1 n2 n3 : Nat} {A : List (List (List α))}
    (h : dimsOk n1 n2 n3 A = true) : shape3 A n1 n2 n3 := by
  simp only [dimsOk, Bool.and_eq_true, beq_iff_eq, List.all_eq_true] at h
  exact ⟨h.1, fun r hr => ⟨(h.2 r hr).1, fun p hp => ((h.2 r hr).2 p hp)⟩⟩

/-- Shape of a 3-D outer-masked selection: each axis shrinks to the number of
true entries of its mask. -/
theorem slice3_shape {α : Type} (a b c : List Bool) (A : List (List (List α)))
    (h : dimsOk a.length b.length c.length A = true) :
    shape3 (slice3 a b c A) (a.count true) (b.count true) (c.count true) := by
  obtain ⟨h1, h2⟩ := dimsOk_spec h
  constructor
  · simpa [slice3] using sliceMask_length a A h1.symm
  · intro r hr
    simp only [slice3, List.mem_map] at hr
    obtain ⟨r0, hr0, rfl⟩ := hr
    have hr0A := sliceMask_mem a A r0 hr0
    obtain ⟨hlen, hin⟩ := h2 r0 hr0A
    constructor
    · simpa using sliceMask_length b r0 hlen.symm
    · intro p hp
      simp only [List.mem_map] at hp
      obtain ⟨p0, hp0, rfl⟩ := hp
      exact sliceMask_length c p0 (hin p0 (sliceMask_mem b r0 p0 hp0)).symm

/-- A caller-supplied bounds list that unpacks successfully has length four. -/
theorem effBounds_some_len {l : List ℚ} {a b c d : ℚ} {t : ℚ × ℚ × ℚ × ℚ}
    (h : effBounds (some l) a b c d = some t) : l.length = 4 := by
  rcases l with _ | ⟨p, _ | ⟨q, _ | ⟨r, _ | ⟨s, _ | ⟨t5, rest⟩⟩⟩⟩⟩ <;>
    first
      | rfl
      | simp [effBounds] at h

/-- Inversion of a successful run of the body: every attribute and variable
was present, the bounds resolved, the three arrays passed the shape check,
and the returned slice is exactly the masked selection. -/
theorem load_grid_core_ok_inv {ds : GridDataset} {dmin dmax : Int}
    {gd : Option (List ℚ)} {sl : GridSlice}
    (h : load_grid_core ds dmin dmax gd = .ok sl) :
    ∃ pt llo lhi lolo lohi lst lnst x y d rt xcA sdA nA lm lM om oM,
      ds.attrs_product_type = some pt ∧
      ds.attrs_lat_low = some llo ∧
      ds.attrs_lat_high = some lhi ∧
      ds.attrs_lon_low = some lolo ∧
      ds.attrs_lon_high = some lohi ∧
      ds.attrs_lat_res = some lst ∧
      ds.attrs_lon_res = some lnst ∧
      ds.var_lon = some x ∧
      ds.var_lat = some y ∧
      ds.var_day = some d ∧
      ds.attrs_reference_time = some rt ∧
      ds.var_xch4 = some xcA ∧
      ds.var_xch4_err = some sdA ∧
      ds.var_N = some nA ∧
      effBounds gd llo lhi lolo lohi = some (lm, lM, om, oM) ∧
      dimsOk y.length x.length d.length xcA = true ∧
      dimsOk y.length x.length d.length sdA = true ∧
      dimsOk y.length x.length d.length nA = true ∧
      sl = { xch4 := slice3 (halfOpenMask lm lM y) (halfOpenMask om oM x)
                     (closedMask dmin dmax d) xcA,
             sdev := slice3 (halfOpenMask lm lM y) (halfOpenMask om oM x)
                     (closedMask dmin dmax d) sdA,
             N := slice3 (halfOpenMask lm lM y) (halfOpenMask om oM x)
                     (closedMask dmin dmax d) nA,
             x := sliceMask (halfOpenMask om oM x) x,
             y := sliceMask (halfOpenMask lm lM y) y,
             d := sliceMask (closedMask dmin dmax d) d,
             grid_dim := { LAT_LOW := lm, LAT_HIGH := lM, LON_LOW := om,
                           LON_HIGH := oM, LAT_STEP := lst, LON_STEP := lnst },
             product_type := pt, ref_time := rt } := by
  unfold load_grid_core at h
  cases hpt : ds.attrs_product_type with
  | none => simp [hpt] at h
  | some pt =>
  simp only [hpt] at h
  cases h1 : ds.attrs_lat_low with
  | none => simp [h1] at h
  | some llo =>
  simp only [h1] at h
  cases h2 : ds.attrs_lat_high with
  | none => simp [h2] at h
  | some lhi =>
  simp only [h2] at h
  cases h3 : ds.attrs_lon_low with
  | none => simp [h3] at h
  | some lolo =>
  simp only [h3] at h
  cases h4 : ds.attrs_lon_high with
  | none => simp [h4] at h
  | some lohi =>
  simp only [h4] at h
  cases h5 : ds.attrs_lat_res with
  | none => simp [h5] at h
  | some lst =>
  simp only [h5] at h
  cases h6 : ds.attrs_lon_res with
  | none => simp [h6] at h
  | some lnst =>
  simp only [h6] at h
  by_cases hz : lst = 0 ∨ lnst = 0
  · rw [if_pos hz] at h
    exact absurd h (by simp)
  rw [if_neg hz] at h
  by_cases hneg : ratTrunc ((lhi - llo) / lst) < 0 ∨ ratTrunc ((lohi - lolo) / lnst) < 0
  · rw [if_pos hneg] at h
    exact absurd h (by simp)
  rw [if_neg hneg] at h
  cases hx : ds.var_lon with
  | none => simp [hx] at h
  | some x =>
  simp only [hx] at h
  cases hy : ds.var_lat with
  | none => simp [hy] at h
  | some y =>
  simp only [hy] at h
  cases hd : ds.var_day with
  | none => simp [hd] at h
  | some d =>
  simp only [hd] at h
  cases hrt : ds.attrs_reference_time with
  | none => simp [hrt] at h
  | some rt =>
  simp only [hrt] at h
  cases heb : effBounds gd llo lhi lolo lohi with
  | none => simp [heb] at h
  | some t =>
  obtain ⟨lm, lM, om, oM⟩ := t
  simp only [heb] at h
  cases hxc : ds.var_xch4 with
  | none => simp [hxc] at h
  | some xcA =>
  simp only [hxc] at h
  by_cases hdim1 : dimsOk y.length x.length d.length xcA = true
  swap
  · rw [if_neg hdim1] at h
    exact absurd h (by simp)
  rw [if_pos hdim1] at h
  cases hsd : ds.var_xch4_err with
  | none => simp [hsd] at h
  | some sdA =>
  simp only [hsd] at h
  by_cases hdim2 : dimsOk y.length x.length d.length sdA = true
  swap
  · rw [if_neg hdim2] at h
    exact absurd h (by simp)
  rw [if_pos hdim2] at h
  cases hn : ds.var_N with
  | none => simp [hn] at h
  | some nA =>
  simp only [hn] at h
  by_cases hdim3 : dimsOk y.length x.length d.length nA = true
  swap
  · rw [if_neg hdim3] at h
    exact absurd h (by simp)
  rw [if_pos hdim3] at h
  exact ⟨pt, llo, lhi, lolo, lohi, lst, lnst, x, y, d, rt, xcA, sdA, nA, lm, lM, om, oM,
    rfl, rfl, rfl, rfl, rfl, rfl, rfl, rfl, rfl, rfl, rfl, rfl, rfl, rfl, heb,
    hdim1, hdim2, hdim3, (Except.ok.inj h).symm⟩

/-- Inversion of a successful call: the path resolved to a dataset and the
body succeeded on it with the converted day offsets. -/
theorem load_ok_inv {fs : String → Option GridDataset} {d1 m1 y1 d2 m2 y2 : Int}
    {path : String} {gd : Option (List ℚ)} {sl : GridSlice}
    (h : (load_grid_from_netcdf fs d1 m1 y1 d2 m2 y2 path gd).result = .ok sl) :
    ∃ ds, fs path = some ds ∧
      load_grid_core ds (daysFromCivil y1 m1 d1) (daysFromCivil y2 m2 d2) gd = .ok sl := by
  unfold load_grid_from_netcdf at h
  cases hfs : fs path with
  | none => simp [hfs] at h
  | some ds =>
    simp only [hfs] at h
    cases hcore : load_grid_core ds (daysFromCivil y1 m1 d1) (daysFromCivil y2 m2 d2) gd with
    | error e => simp [hcore] at h
    | ok sl2 =>
      simp only [hcore] at h
      exact ⟨ds, rfl, by rw [hcore]; exact congrArg Except.ok (by simpa using h)⟩

/-- The body never raises the bad-path error kind: FileNotFoundError can come
only from resolving the path itself. -/
theorem load_grid_core_ne_fnf (ds : GridDataset) (dmin dmax : Int)
    (gd : Option (List ℚ)) :
    load_grid_core ds dmin dmax gd ≠ .error .fileNotFoundError := by
  unfold load_grid_core
  repeat' split
  all_goals simp

/-- C1: for every call to load_grid with a valid date pair (start ≤ end, as
day offsets from 1970-01-01), every element of the returned day array lies
within the closed interval from the start offset to the end offset. -/
theorem c1_day_values_in_closed_range
    (fs : String → Option GridDataset) (d1 m1 y1 d2 m2 y2 : Int) (path : String)
    (gd : Option (List ℚ)) (sl : GridSlice)
    (hvalid : daysFromCivil y1 m1 d1 ≤ daysFromCivil y2 m2 d2)
    (hok : (load_grid_from_netcdf fs d1 m1 y1 d2 m2 y2 path gd).result = .ok sl) :
    ∀ v ∈ sl.d, daysFromCivil y1 m1 d1 ≤ v ∧ v ≤ daysFromCivil y2 m2 d2 := by
  obtain ⟨ds, hfs, hcore⟩ := load_ok_inv hok
  obtain ⟨pt, llo, lhi, lolo, lohi, lst, lnst, x, y, d, rt, xcA, sdA, nA, lm, lM, om, oM,
    _, _, _, _, _, _, _, _, _, _, _, _, _, _, _, _, _, _, hsl⟩ :=
    load_grid_core_ok_inv hcore
  subst hsl
  intro v hv
  simp only [closedMask] at hv
  simpa using sliceMask_map_pred _ d v hv

/-- C2: with supplied spatial bounds, every returned latitude value is in
[lat_min, lat_max) and every returned longitude value is in
[lon_min, lon_max); and on the spec's 2-degree example file, bounds
(0,10,0,10) select exactly the coordinate values 0,2,4,6,8 on each axis. -/
theorem c2_spatial_half_open_bounds :
    (∀ (fs : String → Option GridDataset) (d1 m1 y1 d2 m2 y2 : Int) (path : String)
        (p q r s : ℚ) (sl : GridSlice),
        (load_grid_from_netcdf fs d1 m1 y1 d2 m2 y2 path (some [p, q, r, s])).result
            = .ok sl →
        (∀ v ∈ sl.y, p ≤ v ∧ v < q) ∧ (∀ w ∈ sl.x, r ≤ w ∧ w < s))
    ∧ (load_grid_from_netcdf exampleFS 1 1 2018 1 2 2018 "example.nc"
          (some [0, 10, 0, 10])).result.map GridSlice.y = .ok [0, 2, 4, 6, 8]
    ∧ (load_grid_from_netcdf exampleFS 1 1 2018 1 2 2018 "example.nc"
          (some [0, 10, 0, 10])).result.map GridSlice.x = .ok [0, 2, 4, 6, 8] := by
  refine ⟨?_, by with_unfolding_all rfl, by with_unfolding_all rfl⟩
  intro fs d1 m1 y1 d2 m2 y2 path p q r s sl hok
  obtain ⟨ds, hfs, hcore⟩ := load_ok_inv hok
  obtain ⟨pt, llo, lhi, lolo, lohi, lst, lnst, x, y, d, rt, xcA, sdA, nA, lm, lM, om, oM,
    _, _, _, _, _, _, _, _, _, _, _, _, _, _, heb, _, _, _, hsl⟩ :=
    load_grid_core_ok_inv hcore
  simp only [effBounds, Option.some.injEq, Prod.mk.injEq] at heb
  obtain ⟨rfl, rfl, rfl, rfl⟩ := heb
  subst hsl
  constructor
  · intro v hv
    simp only [halfOpenMask] at hv
    simpa using sliceMask_map_pred _ y v hv
  · intro w hw
    simp only [halfOpenMask] at hw
    simpa using sliceMask_map_pred _ x w hw

/-- C3: the three returned data arrays share the shape (selected latitudes,
selected longitudes, selected days), and the returned 1-D coordinate arrays
have exactly those three lengths. -/
theorem c3_result_shapes
    (fs : String → Option GridDataset) (d1 m1 y1 d2 m2 y2 : Int) (path : String)
    (gd : Option (List ℚ)) (sl : GridSlice)
    (hok : (load_grid_from_netcdf fs d1 m1 y1 d2 m2 y2 path gd).result = .ok sl) :
    shape3 sl.xch4 sl.y.length sl.x.length sl.d.length ∧
    shape3 sl.sdev sl.y.length sl.x.length sl.d.length ∧
    shape3 sl.N sl.y.length sl.x.length sl.d.length := by
  obtain ⟨ds, hfs, hcore⟩ := load_ok_inv hok
  obtain ⟨pt, llo, lhi, lolo, lohi, lst, lnst, x, y, d, rt, xcA, sdA, nA, lm, lM, om, oM,
    _, _, _, _, _, _, _, _, _, _, _, _, _, _, _, hdim1, hdim2, hdim3, hsl⟩ :=
    load_grid_core_ok_inv hcore
  subst hsl
  have ha : (halfOpenMask lm lM y).length = y.length := by simp [halfOpenMask]
  have hb : (halfOpenMask om oM x).length = x.length := by simp [halfOpenMask]
  have hc : (closedMask (daysFromCivil y1 m1 d1) (daysFromCivil y2 m2 d2) d).length
      = d.length := by simp [closedMask]
  have hy2 : (sliceMask (halfOpenMask lm lM y) y).length = (halfOpenMask lm lM y).count true :=
    sliceMask_length _ _ ha
  have hx2 : (sliceMask (halfOpenMask om oM x) x).length = (halfOpenMask om oM x).count true :=
    sliceMask_length _ _ hb
  have hd2 : (sliceMask (closedMask (daysFromCivil y1 m1 d1) (daysFromCivil y2 m2 d2) d)
      d).length
      = (closedMask (daysFromCivil y1 m1 d1) (daysFromCivil y2 m2 d2) d).count true :=
    sliceMask_length _ _ hc
  refine ⟨?_, ?_, ?_⟩
  · show shape3 (slice3 _ _ _ xcA) _ _ _
    rw [hy2, hx2, hd2]
    exact slice3_shape _ _ _ _ (by rw [ha, hb, hc]; exact hdim1)
  · show shape3 (slice3 _ _ _ sdA) _ _ _
    rw [hy2, hx2, hd2]
    exact slice3_shape _ _ _ _ (by rw [ha, hb, hc]; exact hdim2)
  · show shape3 (slice3 _ _ _ nA) _ _ _
    rw [hy2, hx2, hd2]
    exact slice3_shape _ _ _ _ (by rw [ha, hb, hc]; exact hdim3)

/-- C4: omitting the spatial-bounds argument returns exactly the same outcome
as passing the file's declared native extent explicitly. -/
theorem c4_default_equals_declared_extent
    (fs : String → Option GridDataset) (d1 m1 y1 d2 m2 y2 : Int) (path : String)
    (ds : GridDataset) (llo lhi lolo lohi : ℚ)
    (hfs : fs path = some ds)
    (h1 : ds.attrs_lat_low = some llo) (h2 : ds.attrs_lat_high = some lhi)
    (h3 : ds.attrs_lon_low = some lolo) (h4 : ds.attrs_lon_high = some lohi) :
    load_grid_from_netcdf fs d1 m1 y1 d2 m2 y2 path none
      = load_grid_from_netcdf fs d1 m1 y1 d2 m2 y2 path (some [llo, lhi, lolo, lohi]) := by
  have hcore : ∀ dmin dmax : Int,
      load_grid_core ds dmin dmax none
        = load_grid_core ds dmin dmax (some [llo, lhi, lolo, lohi]) := by
    intro dmin dmax
    obtain ⟨pt, al, ah, ol, oh, ar, bor, rt, vx, vy, vd, vc, ve, vn⟩ := ds
    have e1 : al = some llo := h1
    have e2 : ah = some lhi := h2
    have e3 : ol = some lolo := h3
    have e4 : oh = some lohi := h4
    subst e1 e2 e3 e4
    rfl
  unfold load_grid_from_netcdf
  simp only [hfs]
  rw [hcore]

/-- C5: a date range that selects no day of the file is not an error: the
returned day array is empty and the data arrays are empty along the day
dimension. -/
theorem c5_degenerate_selection_empty
    (fs : String → Option GridDataset) (d1 m1 y1 d2 m2 y2 : Int) (path : String)
    (gd : Option (List ℚ)) (ds : GridDataset) (d0 : List Int) (sl : GridSlice)
    (hfs : fs path = some ds) (hd0 : ds.var_day = some d0)
    (hsel : ∀ v ∈ d0, ¬(daysFromCivil y1 m1 d1 ≤ v ∧ v ≤ daysFromCivil y2 m2 d2))
    (hok : (load_grid_from_netcdf fs d1 m1 y1 d2 m2 y2 path gd).result = .ok sl) :
    sl.d = [] ∧ (∀ r ∈ sl.xch4, ∀ p ∈ r, p = []) ∧
    (∀ r ∈ sl.sdev, ∀ p ∈ r, p = []) ∧ (∀ r ∈ sl.N, ∀ p ∈ r, p = []) := by
  obtain ⟨ds2, hfs2, hcore⟩ := load_ok_inv hok
  rw [hfs] at hfs2
  injection hfs2 with hds
  subst hds
  obtain ⟨pt, llo, lhi, lolo, lohi, lst, lnst, x, y, d, rt, xcA, sdA, nA, lm, lM, om, oM,
    _, _, _, _, _, _, _, _, _, hd, _, _, _, _, _, _, _, _, hsl⟩ :=
    load_grid_core_ok_inv hcore
  rw [hd0] at hd
  injection hd with hdd
  subst hdd
  have hmask : ∀ b ∈ closedMask (daysFromCivil y1 m1 d1) (daysFromCivil y2 m2 d2) d0,
      b = false := by
    intro b hb
    simp only [closedMask, List.mem_map] at hb
    obtain ⟨v, hv, rfl⟩ := hb
    cases hA : decide (daysFromCivil y1 m1 d1 ≤ v) with
    | false => simp
    | true =>
      cases hB : decide (v ≤ daysFromCivil y2 m2 d2) with
      | false => simp
      | true => exact absurd ⟨of_decide_eq_true hA, of_decide_eq_true hB⟩ (hsel v hv)
  subst hsl
  refine ⟨sliceMask_all_false _ _ hmask, ?_, ?_, ?_⟩ <;>
  · intro r hr p hp
    simp only [slice3, List.mem_map] at hr
    obtain ⟨r0, hr0, rfl⟩ := hr
    simp only [List.mem_map] at hp
    obtain ⟨p0, hp0, rfl⟩ := hp
    exact sliceMask_all_false _ _ hmask

/-- C6 counterexample: `incDS` declares a 5-wide latitude axis
(`int((10-0)/2) = 5`) while its actual latitude axis has 2 entries, yet
load_grid returns a result instead of failing with a shape mismatch. -/
theorem c6_counterexample :
    incDS.attrs_lat_low = some 0 ∧ incDS.attrs_lat_high = some 10 ∧
    incDS.attrs_lat_res = some 2 ∧ incDS.var_lat = some [0, 2] ∧
    ratTrunc ((10 - 0) / 2) ≠ (2 : Int) ∧
    exceptIsOk (load_grid_from_netcdf incFS 1 1 2018 1 2 2018 "inc.nc" none).result
      = true :=
  ⟨rfl, rfl, rfl, rfl,
    by with_unfolding_all exact of_decide_eq_true rfl,
    by with_unfolding_all rfl⟩

/-- C6 amended: load_grid performs no consistency check between the declared
bounds/steps and the actual array dimensions; when all required attributes and
variables are present, the steps are nonzero, the computed grid dimensions are
nonnegative and the arrays match the coordinate-axis lengths, it returns a
result even though the declared dimensions disagree with the actual ones. -/
theorem c6_amended_no_consistency_check
    (fs : String → Option GridDataset) (d1 m1 y1 d2 m2 y2 : Int) (path : String)
    (ds : GridDataset) (pt : String) (llo lhi lolo lohi lst lnst : ℚ) (rt : String)
    (x y : List ℚ) (d : List Int)
    (xcA sdA : List (List (List ℚ))) (nA : List (List (List Int)))
    (hfs : fs path = some ds)
    (hpt : ds.attrs_product_type = some pt)
    (h1 : ds.attrs_lat_low = some llo) (h2 : ds.attrs_lat_high = some lhi)
    (h3 : ds.attrs_lon_low = some lolo) (h4 : ds.attrs_lon_high = some lohi)
    (h5 : ds.attrs_lat_res = some lst) (h6 : ds.attrs_lon_res = some lnst)
    (hrt : ds.attrs_reference_time = some rt)
    (hx : ds.var_lon = some x) (hy : ds.var_lat = some y) (hd : ds.var_day = some d)
    (hxc : ds.var_xch4 = some xcA) (hsd : ds.var_xch4_err = some sdA)
    (hn : ds.var_N = some nA)
    (hz1 : lst ≠ 0) (hz2 : lnst ≠ 0)
    (hn1 : ¬ ratTrunc ((lhi - llo) / lst) < 0)
    (hn2 : ¬ ratTrunc ((lohi - lolo) / lnst) < 0)
    (hinc : ratTrunc ((lhi - llo) / lst) ≠ (y.length : Int)
        ∨ ratTrunc ((lohi - lolo) / lnst) ≠ (x.length : Int))
    (hdim1 : dimsOk y.length x.length d.length xcA = true)
    (hdim2 : dimsOk y.length x.length d.length sdA = true)
    (hdim3 : dimsOk y.length x.length d.length nA = true) :
    exceptIsOk (load_grid_from_netcdf fs d1 m1 y1 d2 m2 y2 path none).result = true := by
  unfold load_grid_from_netcdf load_grid_core
  simp only [hfs, hpt, h1, h2, h3, h4, h5, h6, hx, hy, hd, hrt, hxc, hsd, hn, effBounds]
  rw [if_neg (not_or.mpr ⟨hz1, hz2⟩), if_neg (not_or.mpr ⟨hn1, hn2⟩)]
  simp [hdim1, hdim2, hdim3, exceptIsOk]

/-- C7: the metadata record of the returned slice holds the effective bounds
actually used for selection (the caller's bounds when supplied, else the
file's declared extent) together with the file's native resolution steps. -/
theorem c7_metadata_effective_bounds :
    (∀ (fs : String → Option GridDataset) (d1 m1 y1 d2 m2 y2 : Int) (path : String)
        (ds : GridDataset) (p q r s lst lnst : ℚ) (sl : GridSlice),
        fs path = some ds →
        ds.attrs_lat_res = some lst → ds.attrs_lon_res = some lnst →
        (load_grid_from_netcdf fs d1 m1 y1 d2 m2 y2 path (some [p, q, r, s])).result
            = .ok sl →
        sl.grid_dim = { LAT_LOW := p, LAT_HIGH := q, LON_LOW := r, LON_HIGH := s,
                        LAT_STEP := lst, LON_STEP := lnst })
    ∧ (∀ (fs : String → Option GridDataset) (d1 m1 y1 d2 m2 y2 : Int) (path : String)
        (ds : GridDataset) (llo lhi lolo lohi lst lnst : ℚ) (sl : GridSlice),
        fs path = some ds →
        ds.attrs_lat_low = some llo → ds.attrs_lat_high = some lhi →
        ds.attrs_lon_low = some lolo → ds.attrs_lon_high = some lohi →
        ds.attrs_lat_res = some lst → ds.attrs_lon_res = some lnst →
        (load_grid_from_netcdf fs d1 m1 y1 d2 m2 y2 path none).result = .ok sl →
        sl.grid_dim = { LAT_LOW := llo, LAT_HIGH := lhi, LON_LOW := lolo,
                        LON_HIGH := lohi, LAT_STEP := lst, LON_STEP := lnst }) := by
  constructor
  · intro fs d1 m1 y1 d2 m2 y2 path ds p q r s lst lnst sl hfs h5 h6 hok
    obtain ⟨ds2, hfs2, hcore⟩ := load_ok_inv hok
    rw [hfs] at hfs2
    injection hfs2 with hds
    subst hds
    obtain ⟨pt, llo, lhi, lolo, lohi, lst2, lnst2, x, y, d, rt, xcA, sdA, nA, lm, lM, om, oM,
      _, _, _, _, _, hr5, hr6, _, _, _, _, _, _, _, heb, _, _, _, hsl⟩ :=
      load_grid_core_ok_inv hcore
    rw [h5] at hr5
    injection hr5 with e5
    subst e5
    rw [h6] at hr6
    injection hr6 with e6
    subst e6
    simp only [effBounds, Option.some.injEq, Prod.mk.injEq] at heb
    obtain ⟨rfl, rfl, rfl, rfl⟩ := heb
    subst hsl
    rfl
  · intro fs d1 m1 y1 d2 m2 y2 path ds llo lhi lolo lohi lst lnst sl hfs h1 h2 h3 h4 h5 h6 hok
    obtain ⟨ds2, hfs2, hcore⟩ := load_ok_inv hok
    rw [hfs] at hfs2
    injection hfs2 with hds
    subst hds
    obtain ⟨pt, llo2, lhi2, lolo2, lohi2, lst2, lnst2, x, y, d, rt, xcA, sdA, nA, lm, lM, om, oM,
      _, hr1, hr2, hr3, hr4, hr5, hr6, _, _, _, _, _, _, _, heb, _, _, _, hsl⟩ :=
      load_grid_core_ok_inv hcore
    rw [h1] at hr1
    injection hr1 with e1
    subst e1
    rw [h2] at hr2
    injection hr2 with e2
    subst e2
    rw [h3] at hr3
    injection hr3 with e3
    subst e3
    rw [h4] at hr4
    injection hr4 with e4
    subst e4
    rw [h5] at hr5
    injection hr5 with e5
    subst e5
    rw [h6] at hr6
    injection hr6 with e6
    subst e6
    simp only [effBounds, Option.some.injEq, Prod.mk.injEq] at heb
    obtain ⟨rfl, rfl, rfl, rfl⟩ := heb
    subst hsl
    rfl

/-- C8: an unresolvable path fails with the I/O error kind, while a present
file missing a required attribute or variable fails with an error kind
distinct from the bad-path kind. -/
theorem c8_io_and_metadata_error_kinds :
    (∀ (fs : String → Option GridDataset) (d1 m1 y1 d2 m2 y2 : Int) (path : String)
        (gd : Option (List ℚ)), fs path = none →
        (load_grid_from_netcdf fs d1 m1 y1 d2 m2 y2 path gd).result
          = .error .fileNotFoundError)
    ∧ (∀ (fs : String → Option GridDataset) (d1 m1 y1 d2 m2 y2 : Int) (path : String)
        (gd : Option (List ℚ)) (ds : GridDataset), fs path = some ds →
        missingRequired ds = true →
        exceptIsOk (load_grid_from_netcdf fs d1 m1 y1 d2 m2 y2 path gd).result = false ∧
        (load_grid_from_netcdf fs d1 m1 y1 d2 m2 y2 path gd).result
          ≠ .error .fileNotFoundError) := by
  constructor
  · intro fs d1 m1 y1 d2 m2 y2 path gd hfs
    unfold load_grid_from_netcdf
    simp [hfs]
  · intro fs d1 m1 y1 d2 m2 y2 path gd ds hfs hmiss
    constructor
    · cases hres : (load_grid_from_netcdf fs d1 m1 y1 d2 m2 y2 path gd).result with
      | error e => simp [exceptIsOk]
      | ok sl =>
        exfalso
        obtain ⟨ds2, hfs2, hcore⟩ := load_ok_inv hres
        rw [hfs] at hfs2
        injection hfs2 with hds
        subst hds
        obtain ⟨pt, llo, lhi, lolo, lohi, lst, lnst, x, y, d, rt, xcA, sdA, nA,
          lm, lM, om, oM, hpt, h1, h2, h3, h4, h5, h6, hx, hy, hd, hrt, hxc, hsd, hn,
          _, _, _, _, _⟩ := load_grid_core_ok_inv hcore
        simp [missingRequired, hpt, h1, h2, h3, h4, h5, h6, hx, hy, hd, hrt, hxc, hsd, hn]
          at hmiss
    · unfold load_grid_from_netcdf
      simp only [hfs]
      cases hcore : load_grid_core ds (daysFromCivil y1 m1 d1) (daysFromCivil y2 m2 d2) gd with
      | error e =>
        simp only [hcore]
        intro hcontra
        exact load_grid_core_ne_fnf ds (daysFromCivil y1 m1 d1) (daysFromCivil y2 m2 d2) gd
          (by rw [hcore]; exact congrArg Except.error (Except.error.inj hcontra))
      | ok sl => simp [hcore]

/-- C9: on every successful call the dataset handle opened at the start was
closed before the function returned; a slice is never returned with the
handle still open. -/
theorem c9_handle_closed_on_success
    (fs : String → Option GridDataset) (d1 m1 y1 d2 m2 y2 : Int) (path : String)
    (gd : Option (List ℚ)) (sl : GridSlice)
    (hok : (load_grid_from_netcdf fs d1 m1 y1 d2 m2 y2 path gd).result = .ok sl) :
    (load_grid_from_netcdf fs d1 m1 y1 d2 m2 y2 path gd).opened = true ∧
    (load_grid_from_netcdf fs d1 m1 y1 d2 m2 y2 path gd).closed = true := by
  unfold load_grid_from_netcdf at hok ⊢
  cases hfs : fs path with
  | none => simp [hfs] at hok
  | some ds =>
    simp only [hfs] at hok ⊢
    cases hcore : load_grid_core ds (daysFromCivil y1 m1 d1) (daysFromCivil y2 m2 d2) gd with
    | error e => simp [hcore] at hok
    | ok sl2 => simp [hcore]

/-- C10: a supplied spatial-bounds sequence whose length is not four makes the
call fail (no result), and the failure occurs after the file was opened. -/
theorem c10_bad_bounds_length_fails
    (fs : String → Option GridDataset) (d1 m1 y1 d2 m2 y2 : Int) (path : String)
    (ds : GridDataset) (l : List ℚ)
    (hfs : fs path = some ds) (hlen : l.length ≠ 4) :
    exceptIsOk (load_grid_from_netcdf fs d1 m1 y1 d2 m2 y2 path (some l)).result = false ∧
    (load_grid_from_netcdf fs d1 m1 y1 d2 m2 y2 path (some l)).opened = true := by
  constructor
  · cases hres : (load_grid_from_netcdf fs d1 m1 y1 d2 m2 y2 path (some l)).result with
    | error e => simp [exceptIsOk]
    | ok sl =>
      exfalso
      obtain ⟨ds2, hfs2, hcore⟩ := load_ok_inv hres
      obtain ⟨pt, llo, lhi, lolo, lohi, lst, lnst, x, y, d, rt, xcA, sdA, nA,
        lm, lM, om, oM, _, _, _, _, _, _, _, _, _, _, _, _, _, _, heb, _, _, _, _⟩ :=
        load_grid_core_ok_inv hcore
      exact hlen (effBounds_some_len heb)
  · unfold load_grid_from_netcdf
    simp only [hfs]
    cases hcore : load_grid_core ds (daysFromCivil y1 m1 d1) (daysFromCivil y2 m2 d2)
        (some l) with
    | error e => simp [hcore]
    | ok sl => simp [hcore]

/-- Witness for C1 at the small file with dates 2018-01-01 .. 2018-02-01,
instantiated at the returned day value 17563. -/
theorem c1_witness :
    daysFromCivil 2018 1 1 ≤ 17563 ∧ (17563 : Int) ≤ daysFromCivil 2018 2 1 :=
  c1_day_values_in_closed_range smallFS 1 1 2018 1 2 2018 "small.nc" none smallSliceA
    (by decide) (by with_unfolding_all rfl) 17563 (by decide)

/-- Witness for C2 at the small file with bounds (0,4,0,4). -/
theorem c2_witness :
    (∀ v ∈ smallSliceA.y, (0 : ℚ) ≤ v ∧ v < 4) ∧
    (∀ w ∈ smallSliceA.x, (0 : ℚ) ≤ w ∧ w < 4) :=
  c2_spatial_half_open_bounds.1 smallFS 1 1 2018 1 2 2018 "small.nc" 0 4 0 4 smallSliceA
    (by with_unfolding_all rfl)

/-- Witness for C3 at the small file. -/
theorem c3_witness :
    shape3 smallSliceA.xch4 smallSliceA.y.length smallSliceA.x.length smallSliceA.d.length ∧
    shape3 smallSliceA.sdev smallSliceA.y.length smallSliceA.x.length smallSliceA.d.length ∧
    shape3 smallSliceA.N smallSliceA.y.length smallSliceA.x.length smallSliceA.d.length :=
  c3_result_shapes smallFS 1 1 2018 1 2 2018 "small.nc" none smallSliceA
    (by with_unfolding_all rfl)

/-- Witness for C4 at the small file, whose declared extent is (0,4,0,4). -/
theorem c4_witness :
    load_grid_from_netcdf smallFS 1 1 2018 1 2 2018 "small.nc" none
      = load_grid_from_netcdf smallFS 1 1 2018 1 2 2018 "small.nc" (some [0, 4, 0, 4]) :=
  c4_default_equals_declared_extent smallFS 1 1 2018 1 2 2018 "small.nc" smallDS 0 4 0 4
    rfl rfl rfl rfl rfl

/-- Witness for C5 at the small file with start date 2019-01-01 after end date
2018-01-01: the selection is empty and the call still returns a slice. -/
theorem c5_witness :
    smallSliceE.d = [] ∧ (∀ r ∈ smallSliceE.xch4, ∀ p ∈ r, p = []) ∧
    (∀ r ∈ smallSliceE.sdev, ∀ p ∈ r, p = []) ∧ (∀ r ∈ smallSliceE.N, ∀ p ∈ r, p = []) :=
  c5_degenerate_selection_empty smallFS 1 1 2019 1 1 2018 "small.nc" none smallDS
    [17532, 17563, 17600] smallSliceE rfl rfl (by decide) (by with_unfolding_all rfl)

/-- Witness for the amended C6 at the inconsistent file `incDS`. -/
theorem c6_amended_witness :
    exceptIsOk (load_grid_from_netcdf incFS 1 1 2018 1 2 2018 "inc.nc" none).result
      = true :=
  c6_amended_no_consistency_check incFS 1 1 2018 1 2 2018 "inc.nc" incDS "inc"
    0 10 0 10 2 2 "r" [0, 2] [0, 2] [17532]
    [[[1], [2]], [[3], [4]]] [[[1], [2]], [[3], [4]]] [[[1], [2]], [[3], [4]]]
    rfl rfl rfl rfl rfl rfl rfl rfl rfl rfl rfl rfl rfl rfl rfl
    (by decide) (by decide)
    (by with_unfolding_all exact of_decide_eq_true rfl)
    (by with_unfolding_all exact of_decide_eq_true rfl)
    (Or.inl (by with_unfolding_all exact of_decide_eq_true rfl))
    rfl rfl rfl

/-- Witness for C7 at the small file with explicit bounds (0,4,0,4). -/
theorem c7_witness :
    smallSliceA.grid_dim = { LAT_LOW := 0, LAT_HIGH := 4, LON_LOW := 0, LON_HIGH := 4,
                             LAT_STEP := 2, LON_STEP := 2 } :=
  c7_metadata_effective_bounds.1 smallFS 1 1 2018 1 2 2018 "small.nc" smallDS 0 4 0 4 2 2
    smallSliceA rfl rfl rfl (by with_unfolding_all rfl)

/-- Witness for C8 on a filesystem with no files. -/
theorem c8_witness :
    (load_grid_from_netcdf (fun _ => none) 1 1 2018 1 2 2018 "absent.nc" none).result
      = .error .fileNotFoundError :=
  c8_io_and_metadata_error_kinds.1 (fun _ => none) 1 1 2018 1 2 2018 "absent.nc" none rfl

/-- Witness for C9 at the small file. -/
theorem c9_witness :
    (load_grid_from_netcdf smallFS 1 1 2018 1 2 2018 "small.nc" none).opened = true ∧
    (load_grid_from_netcdf smallFS 1 1 2018 1 2 2018 "small.nc" none).closed = true :=
  c9_handle_closed_on_success smallFS 1 1 2018 1 2 2018 "small.nc" none smallSliceA
    (by with_unfolding_all rfl)

/-- Witness for C10 at the small file with a three-element bounds list. -/
theorem c10_witness :
    exceptIsOk (load_grid_from_netcdf smallFS 1 1 2018 1 2 2018 "small.nc"
      (some [1, 2, 3])).result = false ∧
    (load_grid_from_netcdf smallFS 1 1 2018 1 2 2018 "small.nc"
      (some [1, 2, 3])).opened = true :=
  c10_bad_bounds_length_fails smallFS 1 1 2018 1 2 2018 "small.nc" smallDS [1, 2, 3]
    rfl (by decide)

end WFMD
